import Mathlib

/-!
# Verification of `target-lightspeedrseries` (shallow embedding)

This file embeds, in Lean 4, the parts of the Python repository
`target_lightspeedrseries` that the specification's claims are about:

* `auth.py` — `LightspeedRSeriesAuthenticator`: token validity
  (`is_token_valid`), Retry-After parsing (`_calculate_wait_time`), and the
  refresh flow (`update_access_token` / `_update_config_tokens` /
  `_save_config_to_file`);
* `client.py` — `LightspeedRSeriesSink`: the rate-limit gate (`_rate_limit`
  together with the timestamp update in `_request`) and the sink-level
  Retry-After parser (`_parse_retry_after`);
* `sinks.py` — `BuyOrders`: date normalisation (`_format_date`), record
  mapping (`preprocess_record`), and the order/line submission workflow
  (`upsert_record`).

Modelling conventions:

* Python values appearing in records are modelled by `PyVal`
  (`None` / string / integer) with Python truthiness (`PyVal.truthy`) and
  Python `str()` (`PyVal.pyStr`).  `x or y` is `pyOr`.
* Machine floats in the sources only carry second counts and timestamps;
  they are modelled as rationals (`ℚ`), exact arithmetic standing in for
  IEEE arithmetic on these small magnitudes.
* Library-level string parsing (`int(...)`/`float(...)` and
  `email.utils.parsedate_to_datetime`, `datetime.fromisoformat`) is
  abstracted: the Retry-After header is classified by its parse outcome
  (`RetryAfter`), and the ISO parser is a function parameter.  The control
  flow around those parsers is translated from the source verbatim.
* Network I/O is an oracle: each HTTP call either returns a parsed (or
  unparseable) JSON body or raises an exception (`CallResult`).  The
  workflow functions additionally expose, next to the values the Python
  functions return, the observables the claims speak about: the list of
  attempted API calls and the per-line success/failure counters that the
  source logs.
-/

/-- Model of the Python scalar values appearing in input records and
configs: `None`, strings and integers (the only shapes the claims
exercise). -/
inductive PyVal where
  | none
  | str (s : String)
  | int (n : Int)
deriving DecidableEq, Repr

namespace PyVal

/-- Python truthiness: `None` and `""` and `0` are falsy. -/
def truthy : PyVal → Bool
  | .none => false
  | .str s => s ≠ ""
  | .int n => n ≠ 0

/-- Python `str(...)`: `str(None) = "None"`, strings unchanged, integers
rendered in decimal. -/
def pyStr : PyVal → String
  | .none => "None"
  | .str s => s
  | .int n => toString n

end PyVal

/-- Python `x or y` on modelled values: `y` when `x` is falsy. -/
def pyOr (a b : PyVal) : PyVal :=
  if a.truthy then a else b

/-- Python `x or y` on optional strings (used where the source chains
`.get(...)` results that are strings or `None`). -/
def strOr (a b : Option String) : Option String :=
  match a with
  | Option.none => b
  | some s => if s = "" then b else some s

/-- Truthiness of an optional string (`None` and `""` falsy). -/
def optStrTruthy : Option String → Bool
  | Option.none => false
  | some s => s ≠ ""

/-- The connector configuration dictionary (`self._config` /
`self.config`), restricted to the keys the modelled code reads.  The
source stores the *absolute* expiry timestamp back under the key
`expires_in` (see `_update_config_tokens`), so the field keeps that
name. -/
structure Config where
  access_token : Option String := Option.none
  refresh_token : Option String := Option.none
  client_id : String := ""
  client_secret : String := ""
  expires_in : Option Int := Option.none
  buyorders_shop_id : PyVal := PyVal.none
deriving DecidableEq, Repr

namespace Auth

/-- Constant `TOKEN_BUFFER_SECONDS` from `auth.py`. -/
def TOKEN_BUFFER_SECONDS : Int := 120

/-- Constant `DEFAULT_WAIT_TIME` from `auth.py` (seconds). -/
def DEFAULT_WAIT_TIME : ℚ := 60

/-- Constant `DEFAULT_TOKEN_EXPIRATION` from `auth.py` (seconds). -/
def DEFAULT_TOKEN_EXPIRATION : Int := 3600

/-- Function `LightspeedRSeriesAuthenticator.is_token_valid`, with
`round(datetime.utcnow().timestamp())` passed in as `now`:

```python
access_token = self._config.get("access_token")
if not access_token: return False
expires_in = self._config.get("expires_in")
if expires_in is None: return False
now = round(datetime.utcnow().timestamp())
return (int(expires_in) - now) >= self.TOKEN_BUFFER_SECONDS
``` -/
def is_token_valid (cfg : Config) (now : Int) : Bool :=
  if ¬ optStrTruthy cfg.access_token then false
  else
    match cfg.expires_in with
    | Option.none => false
    | some e => decide (e - now ≥ TOKEN_BUFFER_SECONDS)

/-- Classification of a `Retry-After` header value by how the Python
string parsers treat it:

* `absent` — header missing or empty (falsy);
* `intStr n` — parses as a Python `int` (hence also as a `float`);
* `floatStr q` — parses as a Python `float` but not as an `int`
  (e.g. `"120.5"`);
* `httpDate delta` — not numeric, but `parsedate_to_datetime` succeeds and
  the parsed date minus `datetime.utcnow()` is `delta` seconds;
* `junk` — none of the above (e.g. `"not-a-date"`). -/
inductive RetryAfter where
  | absent
  | intStr (n : Int)
  | floatStr (q : ℚ)
  | httpDate (delta : ℚ)
  | junk
deriving DecidableEq, Repr

/-- Function `LightspeedRSeriesAuthenticator._calculate_wait_time`:

```python
if not retry_after: return self.DEFAULT_WAIT_TIME
try: return float(retry_after)
except ValueError:
    try:
        retry_datetime = parsedate_to_datetime(retry_after)
        wait_seconds = (retry_datetime - datetime.utcnow()).total_seconds()
        return max(self.DEFAULT_WAIT_TIME, wait_seconds)
    except (ValueError, TypeError, OverflowError):
        return self.DEFAULT_WAIT_TIME
``` -/
def calculate_wait_time : RetryAfter → ℚ
  | .absent => DEFAULT_WAIT_TIME
  | .intStr n => (n : ℚ)
  | .floatStr q => q
  | .httpDate delta => max DEFAULT_WAIT_TIME delta
  | .junk => DEFAULT_WAIT_TIME

/-- The provider's "token still valid" signal checked by
`update_access_token`. -/
def RATE_LIMIT_NOT_EXPIRED : String :=
  "Rate limit exceeded: access_token not expired"

/-- The JSON body and status of the final response of the OAuth token
request (`_make_token_request` after its 429 backoff loop has produced a
non-429 response).  `expires_in = none` models the key being absent, the
case the source defaults. -/
structure TokenResponse where
  status : Nat
  error_description : Option String := Option.none
  access_token : Option String := Option.none
  refresh_token : Option String := Option.none
  expires_in : Option Int := Option.none
deriving DecidableEq, Repr

/-- Result of `update_access_token`: the config afterwards and whether
`_save_config_to_file` was executed (the config persisted to the
credential file). -/
structure RefreshResult where
  config : Config
  persisted : Bool
deriving DecidableEq, Repr

/-- Function `LightspeedRSeriesAuthenticator.update_access_token`, as a function of
the starting config, `now = round(request_time.timestamp())` (captured at
entry, before the HTTP call), and the token endpoint's final response.
Errors (`raise`) are `Except.error` with the exception's message shape:

1. missing/falsy `refresh_token` → fatal `RuntimeError`;
2. status 200 with `error_description == "Rate limit exceeded:
   access_token not expired"` → return with no mutation, nothing saved;
3. `raise_for_status` (status ≥ 400) → `RuntimeError` wrapping the error
   body;
4. otherwise `token_json["access_token"]` (`KeyError` when absent),
   `expires_in = token_json.get("expires_in", 3600)`, then
   `_update_config_tokens` stores `access_token`, the response's
   `refresh_token` when present (keeping the existing one otherwise), and
   `expires_in := now + int(expires_in)`, and `_save_config_to_file`
   persists the config before returning. -/
def update_access_token (cfg : Config) (now : Int) (resp : TokenResponse) :
    Except String RefreshResult :=
  if ¬ optStrTruthy cfg.refresh_token then
    Except.error "No refresh_token found in config. Cannot refresh access token."
  else if resp.status = 200 ∧ resp.error_description = some RATE_LIMIT_NOT_EXPIRED then
    Except.ok ⟨cfg, false⟩
  else if resp.status ≥ 400 then
    Except.error "Failed OAuth login"
  else
    match resp.access_token with
    | Option.none => Except.error "KeyError: access_token"
    | some tok =>
        let expiresIn := resp.expires_in.getD DEFAULT_TOKEN_EXPIRATION
        let cfg' : Config :=
          { cfg with
            access_token := some tok
            refresh_token :=
              match resp.refresh_token with
              | some r => some r
              | Option.none => cfg.refresh_token
            expires_in := some (now + expiresIn) }
        Except.ok ⟨cfg', true⟩

end Auth

namespace Client

/-- Constant `MIN_REQUEST_INTERVAL` from `client.py` (seconds). -/
def MIN_REQUEST_INTERVAL : ℚ := 1 / 2

/-- Constant `DEFAULT_RETRY_AFTER` from `client.py` (seconds). -/
def DEFAULT_RETRY_AFTER : Int := 60

/-- Function `LightspeedRSeriesSink._parse_retry_after` (returns an `int`; a value
that `float` accepts but `int` rejects falls into the date branch, where
`parsedate_to_datetime` fails and the default is returned):

```python
if not retry_after: return self.DEFAULT_RETRY_AFTER
try: return int(retry_after)
except ValueError:
    try:
        retry_datetime = parsedate_to_datetime(retry_after)
        wait_seconds = max(self.DEFAULT_RETRY_AFTER,
                           (retry_datetime - datetime.utcnow()).total_seconds())
        return int(wait_seconds)
    except Exception:
        return self.DEFAULT_RETRY_AFTER
```

`int()` on the non-negative rational `max(60, delta)` truncates toward
zero, i.e. takes the floor. -/
def parse_retry_after : Auth.RetryAfter → Int
  | .absent => DEFAULT_RETRY_AFTER
  | .intStr n => n
  | .floatStr _ => DEFAULT_RETRY_AFTER
  | .httpDate delta => Rat.floor (max (DEFAULT_RETRY_AFTER : ℚ) delta)
  | .junk => DEFAULT_RETRY_AFTER

/-- The start time `_request` begins its HTTP call at, given the wall
clock `now` when `_rate_limit` runs and the shared
`LightspeedRSeriesSink._last_request_time` value `last`:

```python
time_since_last_request = current_time - _last_request_time
if time_since_last_request < _min_request_interval:
    time.sleep(_min_request_interval - time_since_last_request)
```

so the call starts at `now + (interval - (now - last))` after the sleep,
and at `now` when no sleep is needed. -/
def rateGateStart (interval now last : ℚ) : ℚ :=
  if now - last < interval then now + (interval - (now - last)) else now

/-- One modelled `_request` execution: `duration ≥ 0` is the wall-clock
time the HTTP call takes, and `ok` records whether the response is a
success — the timestamp bookkeeping in `_request` does not look at it
(`_last_request_time` is set right after `requests.request` returns,
before `validate_response`, whatever the status code is). -/
structure ReqSpec where
  duration : ℚ
  ok : Bool
deriving DecidableEq, Repr

/-- A back-to-back run of `_request` calls with no artificial delay
between them: each request is issued the moment the previous call
finishes.  `now` is the wall clock when the next `_rate_limit` runs and
`last` the current `_last_request_time`; the result is the list of actual
HTTP-call start times.  After each call the completion time
`start + duration` is recorded into `_last_request_time` (for every
request, successful or not) and the next request is issued at that same
instant. -/
def runRequests (interval : ℚ) : ℚ → ℚ → List ReqSpec → List ℚ
  | _, _, [] => []
  | now, last, r :: rs =>
      let start := rateGateStart interval now last
      let finish := start + r.duration
      start :: runRequests interval finish finish rs

end Client

namespace Sinks

/-- A naive (timezone-free) datetime at second granularity, the shape
`datetime.fromisoformat` yields on the timezone-free inputs the claims
exercise. -/
structure NaiveDT where
  year : Nat
  month : Nat
  day : Nat
  hour : Nat
  minute : Nat
  second : Nat
deriving DecidableEq, Repr

/-- Two-digit zero padding, as Python's datetime field rendering. -/
def pad2 (n : Nat) : String :=
  if n < 10 then "0" ++ toString n else toString n

/-- Four-digit zero padding for the year. -/
def pad4 (n : Nat) : String :=
  if n < 10 then "000" ++ toString n
  else if n < 100 then "00" ++ toString n
  else if n < 1000 then "0" ++ toString n
  else toString n

/-- Python `datetime.isoformat()` of a naive datetime (no offset suffix). -/
def isoformatNaive (dt : NaiveDT) : String :=
  pad4 dt.year ++ "-" ++ pad2 dt.month ++ "-" ++ pad2 dt.day ++ "T" ++
    pad2 dt.hour ++ ":" ++ pad2 dt.minute ++ ":" ++ pad2 dt.second

/-- Python `datetime.isoformat()` after `dt.replace(tzinfo=timezone.utc)`: the
naive rendering followed by the UTC offset. -/
def isoformatUTC (dt : NaiveDT) : String :=
  isoformatNaive dt ++ "+00:00"

/-- Python `s.replace("Z", "+00:00")` on the character list: every
occurrence of the single-character pattern is replaced. -/
def replaceZ : List Char → List Char
  | [] => []
  | c :: rest =>
      if c = 'Z' then '+' :: '0' :: '0' :: ':' :: '0' :: '0' :: replaceZ rest
      else c :: replaceZ rest

/-- Function `BuyOrders._format_date` on a string input.  `parse` stands for
`datetime.fromisoformat`, returning `none` when it raises:

```python
if "Z" in date_value: return date_value.replace("Z", "+00:00")
elif "+" in date_value or date_value.count("-") > 2: return date_value
else:
    try:
        dt = datetime.fromisoformat(date_value)
        if dt.tzinfo is None: dt = dt.replace(tzinfo=timezone.utc)
        return dt.isoformat()
    except: return date_value
```

A string containing neither `+` nor more than two `-` cannot carry an
offset, so a successful parse in the last branch is naive. -/
def format_date_str (parse : String → Option NaiveDT) (s : String) : String :=
  if s.data.contains 'Z' then ⟨replaceZ s.data⟩
  else if s.data.contains '+' ∨ s.data.count '-' > 2 then s
  else
    match parse s with
    | some dt => isoformatUTC dt
    | Option.none => s

/-- Function `BuyOrders._format_date` on a modelled record value: `None` maps to
`None`, strings go through the string branch, any other scalar is
rendered with `str(...)`. -/
def format_date (parse : String → Option NaiveDT) : PyVal → Option String
  | PyVal.none => Option.none
  | PyVal.str s => some (format_date_str parse s)
  | PyVal.int n => some (toString n)

/-- One line item of the `line_items` list, restricted to the keys
`upsert_record` reads (a missing key and an explicit `None` are the same
to `dict.get`). -/
structure LineItem where
  quantity : PyVal := PyVal.none
  productId : PyVal := PyVal.none
  product_remoteId : PyVal := PyVal.none
  OptiplySupplierProductPrice : PyVal := PyVal.none
  price : PyVal := PyVal.none
  originalPrice : PyVal := PyVal.none
  numReceived : PyVal := PyVal.none
  vendorCost : PyVal := PyVal.none
deriving DecidableEq, Repr

/-- The `line_items` field of an input record, classified by the branch
`_parse_line_items` takes:

* `absent` — key missing, `None`, empty string or empty list (all falsy);
* `jsonGood ls` — a string `json.loads` parses into the list `ls`;
* `jsonBad` — a string `json.loads` rejects;
* `structured ls` — already a (non-empty) list. -/
inductive LineItemsField where
  | absent
  | jsonGood (ls : List LineItem)
  | jsonBad
  | structured (ls : List LineItem)

/-- Function `BuyOrders._parse_line_items`: falsy input and malformed JSON degrade
to `[]`; otherwise the parsed or given list is returned. -/
def parse_line_items : LineItemsField → List LineItem
  | .absent => []
  | .jsonGood ls => ls
  | .jsonBad => []
  | .structured ls => ls

/-- An input record, restricted to the keys `preprocess_record` reads.
`buyOrderID` models the key `"BuyOrder.ID"`, `idField` the key `"id"`;
a missing key is `PyVal.none`. -/
structure InputRecord where
  line_items : LineItemsField := LineItemsField.absent
  buyOrderID : PyVal := PyVal.none
  idField : PyVal := PyVal.none
  externalid : PyVal := PyVal.none
  refNum : PyVal := PyVal.none
  orderDate : PyVal := PyVal.none
  transaction_date : PyVal := PyVal.none
  orderedDate : PyVal := PyVal.none
  expectedDeliveryDate : PyVal := PyVal.none
  created_at : PyVal := PyVal.none
  arrivalDate : PyVal := PyVal.none
  supplierRemoteId : PyVal := PyVal.none
  supplier_remoteId : PyVal := PyVal.none
  vendorID : PyVal := PyVal.none
  shopID : PyVal := PyVal.none
  shipInstructions : PyVal := PyVal.none
  stockInstructions : PyVal := PyVal.none
  shipCost : PyVal := PyVal.none
  otherCost : PyVal := PyVal.none
  discount : PyVal := PyVal.none

/-- The dictionary `preprocess_record` returns: `entries` are its ordinary
keys in insertion order, and `lineItems` is the value stored under the
`"_line_items"` key. -/
structure OrderPayload where
  entries : List (String × PyVal)
  lineItems : List LineItem

/-- Function `BuyOrders.preprocess_record`.  The `ValueError` raised when no shop
id resolves is `Except.error` with the exception's message; each mapped
field is inserted exactly when the source inserts it (`is not None`
checks against `PyVal.none`, truthiness checks via `PyVal.truthy`). -/
def preprocess_record (parse : String → Option NaiveDT) (cfg : Config)
    (rec : InputRecord) : Except String OrderPayload :=
  let line_items := parse_line_items rec.line_items
  let refNum := pyOr (pyOr (pyOr rec.buyOrderID rec.idField) rec.externalid) rec.refNum
  let orderedDate :=
    strOr (strOr (format_date parse rec.orderDate) (format_date parse rec.transaction_date))
      (format_date parse rec.orderedDate)
  let arrivalDate :=
    strOr (strOr (format_date parse rec.expectedDeliveryDate) (format_date parse rec.created_at))
      (format_date parse rec.arrivalDate)
  let vendorID := pyOr (pyOr rec.supplierRemoteId rec.supplier_remoteId) rec.vendorID
  let shop_id := pyOr rec.shopID cfg.buyorders_shop_id
  if ¬ shop_id.truthy then
    Except.error "shopID is required but not found in record or config (buyorders_shop_id)"
  else
    Except.ok
      { entries :=
          (if refNum ≠ PyVal.none then [("refNum", PyVal.str refNum.pyStr)] else []) ++
          (match orderedDate with
            | some s => [("orderedDate", PyVal.str s)]
            | Option.none => []) ++
          (match arrivalDate with
            | some s => [("arrivalDate", PyVal.str s)]
            | Option.none => []) ++
          (if vendorID ≠ PyVal.none then [("vendorID", PyVal.str vendorID.pyStr)] else []) ++
          [("shopID", PyVal.str shop_id.pyStr)] ++
          (if rec.shipInstructions.truthy then [("shipInstructions", rec.shipInstructions)] else []) ++
          (if rec.stockInstructions.truthy then [("stockInstructions", rec.stockInstructions)] else []) ++
          (if rec.shipCost ≠ PyVal.none then [("shipCost", rec.shipCost)] else []) ++
          (if rec.otherCost ≠ PyVal.none then [("otherCost", rec.otherCost)] else []) ++
          (if rec.discount ≠ PyVal.none then [("discount", rec.discount)] else [])
        lineItems := line_items }

/-- The parsed JSON body of an API response, restricted to the paths
`upsert_record` reads: `body["Order"]["orderID"]`, the top-level
`"orderID"` and `"id"`, and `body["OrderLine"]["orderLineID"]`.  A
missing path is `PyVal.none` (matching `dict.get` defaults). -/
structure RespBody where
  orderOrderID : PyVal := PyVal.none
  orderID : PyVal := PyVal.none
  idField : PyVal := PyVal.none
  orderLineID : PyVal := PyVal.none
deriving DecidableEq, Repr

/-- The empty dictionary `{}` the source substitutes when a response body
does not parse as JSON. -/
def RespBody.empty : RespBody := {}

/-- A diagnostic value stored into `state_updates`: a string or a parsed
response body. -/
inductive Diag where
  | str (s : String)
  | body (b : RespBody)
deriving DecidableEq, Repr

/-- Outcome of one `request_api` call as the workflow observes it:

* `ok parsed` — the call returned; `parsed` is the JSON body, `none` when
  `response.json()` raises;
* `exn msg ty errBody` — the call raised an exception with message `msg`
  and type name `ty`; `errBody` is the attached response body
  (`e.response`'s JSON, or its text) when one is available. -/
inductive CallResult where
  | ok (parsed : Option RespBody)
  | exn (msg ty : String) (errBody : Option Diag)

/-- The network oracle for one `upsert_record` run: the outcome of the
`POST /Order.json` call and, for each line index, the outcome of its
`POST /OrderLine.json` call. -/
structure Oracle where
  orderResult : CallResult
  lineResult : Nat → CallResult

/-- One attempted API call, with the payload handed to `request_api`. -/
inductive ApiCall where
  | order (payload : List (String × PyVal))
  | orderLine (payload : List (String × String))

/-- The record `upsert_record` receives: its ordinary entries and the
value of the `"_line_items"` key (`none` when the key is absent, so that
the Python dict is falsy exactly when `entries = []` and
`lineItems = none`). -/
structure UpsertRecord where
  entries : List (String × PyVal)
  lineItems : Option (List LineItem)

/-- What one `upsert_record` run returns and exposes: `orderId`,
`success` and `stateUpdates` are the returned triple; `calls` is the list
of attempted API calls in order; `linesSuccess` / `linesFailed` are the
per-line counters the source accumulates and logs
(`"{lines_success} succeeded, {lines_failed} failed"`). -/
structure UpsertResult where
  orderId : Option String
  success : Bool
  stateUpdates : List (String × Diag)
  calls : List ApiCall
  linesSuccess : Nat
  linesFailed : Nat

/-- The per-line payload built inside the loop of `upsert_record`:
`orderID`, `quantity` and `itemID` are always present, each rendered with
Python `str(...)` (so a missing value becomes the string `"None"`); the
four optional fields are added only when the looked-up value
`is not None`. -/
def build_line_payload (orderId : String) (li : LineItem) : List (String × String) :=
  [("orderID", orderId),
   ("quantity", li.quantity.pyStr),
   ("itemID", (pyOr li.productId li.product_remoteId).pyStr)] ++
  (let v := pyOr li.OptiplySupplierProductPrice li.price
   if v ≠ PyVal.none then [("price", v.pyStr)] else []) ++
  (if li.originalPrice ≠ PyVal.none then [("originalPrice", li.originalPrice.pyStr)] else []) ++
  (if li.numReceived ≠ PyVal.none then [("numReceived", li.numReceived.pyStr)] else []) ++
  (if li.vendorCost ≠ PyVal.none then [("vendorCost", li.vendorCost.pyStr)] else [])

/-- Whether a line's call outcome lands in the per-line `except` handler:
either `request_api` raised, or `line_response.json()` raised (the
handler then increments `lines_failed`; any returned body, with or
without an `orderLineID`, increments `lines_success`). -/
def lineFails : CallResult → Bool
  | .exn _ _ _ => true
  | .ok Option.none => true
  | .ok (some _) => false

/-- The per-line loop of `upsert_record`: builds and submits each line
payload in order (index `i` tracks `enumerate`), counting successes and
failures; a failing line is counted and the loop continues. Returns
`(lines_success, lines_failed, attempted line calls)`. -/
def processLines (res : Nat → CallResult) (oid : String) :
    List LineItem → Nat → Nat × Nat × List ApiCall
  | [], _ => (0, 0, [])
  | li :: rest, i =>
      let payload := build_line_payload oid li
      let r := processLines res oid rest (i + 1)
      if lineFails (res i) then (r.1, r.2.1 + 1, .orderLine payload :: r.2.2)
      else (r.1 + 1, r.2.1, .orderLine payload :: r.2.2)

/-- The number of indices `i ≤ j < i + n` whose line call fails — the
reference count for `lines_failed`. -/
def failCount (res : Nat → CallResult) : Nat → Nat → Nat
  | _, 0 => 0
  | i, n + 1 => (if lineFails (res i) then 1 else 0) + failCount res (i + 1) n

/-- The order-id extraction of `upsert_record`:

```python
order_id = response_data.get("Order", {}).get("orderID")
if not order_id:
    order_id = response_data.get("orderID") or response_data.get("id")
``` -/
def orderIdVal (b : RespBody) : PyVal :=
  if b.orderOrderID.truthy then b.orderOrderID else pyOr b.orderID b.idField

/-- The `state_updates` entries written by the outer `except` handler of
`upsert_record`: `api_error_response` first when the exception carries a
response body, then the error message and the exception type name. -/
def outerDiag (msg ty : String) (errBody : Option Diag) : List (String × Diag) :=
  (match errBody with
    | some d => [("api_error_response", d)]
    | Option.none => []) ++
  [("error", Diag.str msg), ("error_type", Diag.str ty)]

/-- Function `BuyOrders.upsert_record`:

1. a falsy (empty) record returns `(None, False, {})` with no call;
2. `"_line_items"` is popped (default `[]`);
3. the order is POSTed; an exception lands in the outer handler
   (`outerDiag`); an unparseable body is treated as `{}`;
4. a missing/falsy order id returns
   `(None, False, {error, api_response})`;
5. otherwise each line is submitted independently (`processLines`), and
   `(str(order_id), True, state_updates)` is returned with
   `state_updates` untouched by line processing. -/
def upsert_record (rec : UpsertRecord) (oracle : Oracle) : UpsertResult :=
  if rec.entries = [] ∧ rec.lineItems = Option.none then
    ⟨Option.none, false, [], [], 0, 0⟩
  else
    let line_items := rec.lineItems.getD []
    match oracle.orderResult with
    | .exn msg ty errBody =>
        ⟨Option.none, false, outerDiag msg ty errBody, [.order rec.entries], 0, 0⟩
    | .ok parsed =>
        let response_data := parsed.getD RespBody.empty
        let oidv := orderIdVal response_data
        if ¬ oidv.truthy then
          ⟨Option.none, false,
            [("error", Diag.str "No orderID in API response"),
             ("api_response", Diag.body response_data)],
            [.order rec.entries], 0, 0⟩
        else
          let oid := oidv.pyStr
          let r := processLines oracle.lineResult oid line_items 0
          ⟨some oid, true, [], .order rec.entries :: r.2.2, r.1, r.2.1⟩

/-- The upstream driver protocol (`preprocess(record, context)` then
`submit(payload, context)`): `preprocess_record` followed, only on
success, by `upsert_record` on the resulting payload dictionary. -/
def process_record (parse : String → Option NaiveDT) (cfg : Config)
    (rec : InputRecord) (oracle : Oracle) : Except String UpsertResult :=
  match preprocess_record parse cfg rec with
  | Except.error e => Except.error e
  | Except.ok p => Except.ok (upsert_record ⟨p.entries, some p.lineItems⟩ oracle)

end Sinks

/-! ## Helper lemmas -/

/-- Unfolding of one step of `runRequests`: the next call starts at the
gate's output, and the state threaded to the rest of the run — both the
wall clock and the recorded `_last_request_time` — is the completion time
`start + duration` of the call, irrespective of `r.ok`. -/
theorem Client.runRequests_cons (interval now last : ℚ) (r : Client.ReqSpec)
    (rs : List Client.ReqSpec) :
    Client.runRequests interval now last (r :: rs) =
      Client.rateGateStart interval now last ::
        Client.runRequests interval
          (Client.rateGateStart interval now last + r.duration)
          (Client.rateGateStart interval now last + r.duration) rs := rfl

/-- When the clock equals the recorded last-request time, the gate delays
the next start by at least the full interval. -/
theorem Client.rateGateStart_self_ge (interval t : ℚ) :
    t + interval ≤ Client.rateGateStart interval t t := by
  unfold Client.rateGateStart
  split <;> linarith

/-- Spacing invariant of a back-to-back run: consecutive start times are
at least `interval` apart, provided call durations are nonnegative. -/
theorem Client.runRequests_spacing (interval : ℚ) (rs : List Client.ReqSpec) :
    ∀ (now last : ℚ), (∀ r ∈ rs, 0 ≤ r.duration) →
      List.Chain' (fun a b => a + interval ≤ b)
        (Client.runRequests interval now last rs) := by
  induction rs with
  | nil => intro now last _; simp [Client.runRequests]
  | cons r rest ih =>
      intro now last hd
      rw [Client.runRequests_cons]
      rcases rest with _ | ⟨r2, rest2⟩
      · simp [Client.runRequests]
      · rw [Client.runRequests_cons, List.chain'_cons]
        constructor
        · have h1 := Client.rateGateStart_self_ge interval
            (Client.rateGateStart interval now last + r.duration)
          have h2 : 0 ≤ r.duration := hd r (by simp)
          linarith
        · rw [← Client.runRequests_cons]
          exact ih _ _ (fun q hq => hd q (by simp [hq]))

/-- Specification of the per-line loop: `lines_failed` counts exactly the
failing line indices, the two counters sum to the number of line items,
and one line call is attempted per line item. -/
theorem Sinks.processLines_spec (res : Nat → Sinks.CallResult) (oid : String) :
    ∀ (ls : List Sinks.LineItem) (i : Nat),
      (Sinks.processLines res oid ls i).2.1 = Sinks.failCount res i ls.length ∧
      (Sinks.processLines res oid ls i).1 + (Sinks.processLines res oid ls i).2.1 = ls.length ∧
      (Sinks.processLines res oid ls i).2.2.length = ls.length := by
  intro ls
  induction ls with
  | nil => intro i; simp [Sinks.processLines, Sinks.failCount]
  | cons li rest ih =>
      intro i
      obtain ⟨h1, h2, h3⟩ := ih (i + 1)
      cases hf : Sinks.lineFails (res i) <;>
        simp [Sinks.processLines, Sinks.failCount, hf] <;> omega

/-! ## Claims -/

/-- C2: in a run of consecutive requests issued through the executor with
no artificial delay between them, every pair of consecutive HTTP-call
start times is at least `MIN_REQUEST_INTERVAL = 0.5` seconds apart
(whatever the nonnegative call durations and the initial clock/state);
and, for every request, successful or not, the state handed to the rest
of the run — the recorded `_last_request_time` — is exactly the
completion time `start + duration` of the call, fixed immediately after
the call returns. -/
theorem c2_rate_limit_interval (now0 last0 : ℚ) (rs : List Client.ReqSpec)
    (hd : ∀ r ∈ rs, 0 ≤ r.duration) :
    List.Chain' (fun a b => a + Client.MIN_REQUEST_INTERVAL ≤ b)
      (Client.runRequests Client.MIN_REQUEST_INTERVAL now0 last0 rs) ∧
    ∀ (r : Client.ReqSpec) (rest : List Client.ReqSpec) (now last : ℚ),
      Client.runRequests Client.MIN_REQUEST_INTERVAL now last (r :: rest) =
        Client.rateGateStart Client.MIN_REQUEST_INTERVAL now last ::
          Client.runRequests Client.MIN_REQUEST_INTERVAL
            (Client.rateGateStart Client.MIN_REQUEST_INTERVAL now last + r.duration)
            (Client.rateGateStart Client.MIN_REQUEST_INTERVAL now last + r.duration) rest :=
  ⟨Client.runRequests_spacing Client.MIN_REQUEST_INTERVAL rs now0 last0 hd,
   fun _ _ _ _ => rfl⟩

/-- Witness for C2: a concrete three-request run starting from a fresh
state, with a slow middle request, satisfies the spacing property. -/
theorem c2_witness :
    List.Chain' (fun a b => a + Client.MIN_REQUEST_INTERVAL ≤ b)
      (Client.runRequests Client.MIN_REQUEST_INTERVAL 0 0
        [⟨0, true⟩, ⟨1, false⟩, ⟨0, true⟩]) :=
  (c2_rate_limit_interval 0 0 [⟨0, true⟩, ⟨1, false⟩, ⟨0, true⟩]
    (by intro r hr; fin_cases hr <;> norm_num)).1

/-- Counterexample for C3: for a `Retry-After` header parsing as an HTTP
date 30 seconds in the future, the claim says the wait is exactly the
delta (30 s); both parsers actually clamp the wait below at the 60 s
default, so the computed wait is 60 s, not 30 s. -/
theorem c3_counterexample :
    Auth.calculate_wait_time (.httpDate 30) ≠ 30 ∧
    Client.parse_retry_after (.httpDate 30) ≠ 30 ∧
    Auth.calculate_wait_time (.httpDate 30) = 60 ∧
    Client.parse_retry_after (.httpDate 30) = 60 := by
  refine ⟨?_, ?_, ?_, ?_⟩ <;> decide

/-- C3 (amended): the integer-seconds value is used when the header
parses as an integer; when it parses as an HTTP date the wait is the
delta (date − now) clamped below at the 60-second default —
`max 60 delta` in the authenticator, and its floor in the sink parser
(Python `int()` truncation); a value parsing as a float but not an
integer yields that float in the authenticator and the 60-second default
in the sink parser; an absent or unparseable header yields the 60-second
default in both. -/
theorem c3_retry_after_amended :
    (∀ n : Int, Auth.calculate_wait_time (.intStr n) = (n : ℚ) ∧
      Client.parse_retry_after (.intStr n) = n) ∧
    (∀ d : ℚ, Auth.calculate_wait_time (.httpDate d) = max 60 d ∧
      Client.parse_retry_after (.httpDate d) = Rat.floor (max 60 d)) ∧
    (∀ q : ℚ, Auth.calculate_wait_time (.floatStr q) = q ∧
      Client.parse_retry_after (.floatStr q) = 60) ∧
    Auth.calculate_wait_time .absent = 60 ∧
    Auth.calculate_wait_time .junk = 60 ∧
    Client.parse_retry_after .absent = 60 ∧
    Client.parse_retry_after .junk = 60 := by
  refine ⟨fun n => ⟨rfl, rfl⟩, fun d => ⟨?_, ?_⟩, fun q => ⟨rfl, rfl⟩, rfl, rfl, rfl, rfl⟩
  · show max Auth.DEFAULT_WAIT_TIME d = max 60 d
    norm_num [Auth.DEFAULT_WAIT_TIME]
  · show Rat.floor (max (Client.DEFAULT_RETRY_AFTER : ℚ) d) = Rat.floor (max 60 d)
    norm_num [Client.DEFAULT_RETRY_AFTER]

/-- C4: `is_token_valid` is true exactly when the access token is present
(non-empty) and the expiry timestamp is present with at least the
120-second buffer remaining, the boundary inclusive: an expiry of
`now + 119` is invalid, `now + 120` is valid. -/
theorem c4_token_validity (cfg : Config) (now : Int) :
    (Auth.is_token_valid cfg now = true ↔
      (∃ t, cfg.access_token = some t ∧ t ≠ "") ∧
      (∃ e, cfg.expires_in = some e ∧ e - now ≥ 120)) ∧
    Auth.is_token_valid
      { access_token := some "t", expires_in := some (now + 119) } now = false ∧
    Auth.is_token_valid
      { access_token := some "t", expires_in := some (now + 120) } now = true := by
  refine ⟨?_, ?_, ?_⟩
  · unfold Auth.is_token_valid Auth.TOKEN_BUFFER_SECONDS optStrTruthy
    rcases hat : cfg.access_token with _ | t
    · simp [hat]
    · rcases he : cfg.expires_in with _ | e
      · by_cases ht : t = "" <;> simp [hat, he, ht]
      · by_cases ht : t = "" <;> simp [hat, he, ht]
  · simp [Auth.is_token_valid, optStrTruthy, Auth.TOKEN_BUFFER_SECONDS]
  · simp [Auth.is_token_valid, optStrTruthy, Auth.TOKEN_BUFFER_SECONDS]

/-- C5: when the token endpoint answers 200 with the provider error
description "Rate limit exceeded: access_token not expired", the refresh
is a no-op success: the config is returned unmutated (access, refresh and
expiry fields untouched) and nothing is persisted; hence two refreshes in
immediate succession under that condition both leave the credentials
unchanged. -/
theorem c5_refresh_noop (cfg : Config) (now now' : Int)
    (resp resp' : Auth.TokenResponse)
    (hrt : optStrTruthy cfg.refresh_token = true)
    (h1 : resp.status = 200)
    (h2 : resp.error_description = some Auth.RATE_LIMIT_NOT_EXPIRED)
    (h1' : resp'.status = 200)
    (h2' : resp'.error_description = some Auth.RATE_LIMIT_NOT_EXPIRED) :
    Auth.update_access_token cfg now resp = Except.ok ⟨cfg, false⟩ ∧
    Auth.update_access_token cfg now' resp' = Except.ok ⟨cfg, false⟩ := by
  unfold Auth.update_access_token
  simp [hrt, h1, h2, h1', h2']

/-- Witness for C5: a concrete config and 200 response with the "not
expired" description, refreshed twice. -/
theorem c5_witness :
    Auth.update_access_token
        { access_token := some "a", refresh_token := some "r" } 0
        { status := 200, error_description := some Auth.RATE_LIMIT_NOT_EXPIRED,
          access_token := some "new" } =
      Except.ok ⟨{ access_token := some "a", refresh_token := some "r" }, false⟩ ∧
    Auth.update_access_token
        { access_token := some "a", refresh_token := some "r" } 1
        { status := 200, error_description := some Auth.RATE_LIMIT_NOT_EXPIRED,
          access_token := some "new" } =
      Except.ok ⟨{ access_token := some "a", refresh_token := some "r" }, false⟩ :=
  c5_refresh_noop { access_token := some "a", refresh_token := some "r" } 0 1
    { status := 200, error_description := some Auth.RATE_LIMIT_NOT_EXPIRED,
      access_token := some "new" }
    { status := 200, error_description := some Auth.RATE_LIMIT_NOT_EXPIRED,
      access_token := some "new" }
    (by decide) rfl rfl rfl rfl

/-- Counterexample for C6: a 200 (2xx) response carrying the "Rate limit
exceeded: access_token not expired" description together with a fresh
access token is treated as a no-op — the stored access token stays
"old", does not become the response's "new", and nothing is persisted —
contradicting the claim's universal statement over all 2xx responses. -/
theorem c6_counterexample :
    Auth.update_access_token
        { access_token := some "old", refresh_token := some "r" } 0
        { status := 200, error_description := some Auth.RATE_LIMIT_NOT_EXPIRED,
          access_token := some "new", expires_in := some 100 } =
      Except.ok ⟨{ access_token := some "old", refresh_token := some "r" }, false⟩ ∧
    (some "old" : Option String) ≠ some "new" :=
  ⟨rfl, by decide⟩

/-- C6 (amended): for every successful (2xx) token-refresh response other
than the 200 "Rate limit exceeded: access_token not expired" no-op
signal, and containing an access token, the stored config afterwards has
that access token, an expiry equal to the request start time plus the
response's `expires_in` (3600 when absent), the response's refresh token
when present and the previous one otherwise, and is persisted to the
credential file before returning. -/
theorem c6_refresh_update (cfg : Config) (now : Int)
    (resp : Auth.TokenResponse) (tok : String)
    (hrt : optStrTruthy cfg.refresh_token = true)
    (hlo : 200 ≤ resp.status) (hhi : resp.status < 300)
    (hnoop : ¬ (resp.status = 200 ∧
      resp.error_description = some Auth.RATE_LIMIT_NOT_EXPIRED))
    (htok : resp.access_token = some tok) :
    Auth.update_access_token cfg now resp =
      Except.ok
        ⟨{ cfg with
            access_token := some tok
            refresh_token :=
              match resp.refresh_token with
              | some r => some r
              | Option.none => cfg.refresh_token
            expires_in := some (now + resp.expires_in.getD Auth.DEFAULT_TOKEN_EXPIRATION) },
          true⟩ := by
  unfold Auth.update_access_token
  rw [if_neg (by simp [hrt]), if_neg hnoop, if_neg (by omega), htok]

/-- Witness for C6: a 201 response with a fresh token and explicit
`expires_in`, against a config with no previous access token. -/
theorem c6_witness :
    Auth.update_access_token { refresh_token := some "r" } 10
        { status := 201, access_token := some "tok", expires_in := some 100 } =
      Except.ok
        ⟨{ refresh_token := some "r", access_token := some "tok",
           expires_in := some 110 }, true⟩ :=
  (c6_refresh_update { refresh_token := some "r" } 10
      { status := 201, access_token := some "tok", expires_in := some 100 } "tok"
      (by decide) (by decide) (by decide) (by simp) rfl).trans rfl

/-- C7: when the record has no shop identifier and the config has no
`buyorders_shop_id` default, `preprocess_record` raises the fatal
`ValueError`, and the full per-record flow errors out for every network
oracle — no API call is attempted for that record. -/
theorem c7_missing_shop_id (parse : String → Option Sinks.NaiveDT)
    (cfg : Config) (rec : Sinks.InputRecord) (oracle : Sinks.Oracle)
    (h1 : rec.shopID = PyVal.none) (h2 : cfg.buyorders_shop_id = PyVal.none) :
    Sinks.preprocess_record parse cfg rec =
      Except.error "shopID is required but not found in record or config (buyorders_shop_id)" ∧
    Sinks.process_record parse cfg rec oracle =
      Except.error "shopID is required but not found in record or config (buyorders_shop_id)" := by
  have hpre : Sinks.preprocess_record parse cfg rec =
      Except.error "shopID is required but not found in record or config (buyorders_shop_id)" := by
    unfold Sinks.preprocess_record
    simp [h1, h2, pyOr, PyVal.truthy]
  refine ⟨hpre, ?_⟩
  unfold Sinks.process_record
  rw [hpre]

/-- Witness for C7: the all-default record against the all-default
config, with an arbitrary oracle. -/
theorem c7_witness :
    Sinks.preprocess_record (fun _ => Option.none) {} {} =
      Except.error "shopID is required but not found in record or config (buyorders_shop_id)" ∧
    Sinks.process_record (fun _ => Option.none) {} {}
        ⟨Sinks.CallResult.ok Option.none, fun _ => Sinks.CallResult.ok Option.none⟩ =
      Except.error "shopID is required but not found in record or config (buyorders_shop_id)" :=
  c7_missing_shop_id (fun _ => Option.none) {} {}
    ⟨Sinks.CallResult.ok Option.none, fun _ => Sinks.CallResult.ok Option.none⟩ rfl rfl

/-- C8: date normalisation — a string already carrying an offset (a `+`
or more than two `-` and no `Z`) passes through unchanged; a naive
parseable string is rendered with the UTC offset appended (`+00:00`); a
`Z`-suffixed UTC string is normalised to the `+00:00` spelling; and
end-to-end, a record with `OrderDate="2025-12-05T08:55:00Z"` maps to a
payload whose `orderedDate` is `"2025-12-05T08:55:00+00:00"`. -/
theorem c8_date_normalisation :
    (∀ (parse : String → Option Sinks.NaiveDT) (s : String),
        s.data.contains 'Z' = false →
        (s.data.contains '+' = true ∨ s.data.count '-' > 2) →
        Sinks.format_date_str parse s = s) ∧
    (∀ (parse : String → Option Sinks.NaiveDT) (s : String) (dt : Sinks.NaiveDT),
        s.data.contains 'Z' = false → s.data.contains '+' = false →
        s.data.count '-' ≤ 2 → parse s = some dt →
        Sinks.format_date_str parse s = Sinks.isoformatNaive dt ++ "+00:00") ∧
    (∀ parse : String → Option Sinks.NaiveDT,
        Sinks.format_date_str parse "2025-12-05T08:55:00Z" =
          "2025-12-05T08:55:00+00:00") ∧
    (∀ parse : String → Option Sinks.NaiveDT,
        Sinks.preprocess_record parse { buyorders_shop_id := PyVal.str "9" }
            { orderDate := PyVal.str "2025-12-05T08:55:00Z" } =
          Except.ok
            ⟨[("orderedDate", PyVal.str "2025-12-05T08:55:00+00:00"),
              ("shopID", PyVal.str "9")], []⟩) := by
  refine ⟨?_, ?_, ?_, ?_⟩
  · intro parse s hz hpm
    unfold Sinks.format_date_str
    rw [if_neg (by rw [hz]; exact Bool.false_ne_true), if_pos]
    rcases hpm with h | h
    · exact Or.inl h
    · exact Or.inr h
  · intro parse s dt hz hp hc hparse
    unfold Sinks.format_date_str
    rw [if_neg (by rw [hz]; exact Bool.false_ne_true),
        if_neg (fun hcond => by
          rcases hcond with h | h
          · rw [hp] at h; exact Bool.false_ne_true h
          · omega),
        hparse]
    rfl
  · intro parse
    rfl
  · intro parse
    rfl

/-- Witness for C8: concrete instances of all four conjuncts — an
offset-qualified string unchanged, a naive string getting `+00:00`, the
`Z` example, and the end-to-end payload. -/
theorem c8_witness :
    Sinks.format_date_str (fun _ => Option.none) "2025-12-05T08:55:00+02:00" =
      "2025-12-05T08:55:00+02:00" ∧
    Sinks.format_date_str (fun _ => some ⟨2025, 12, 5, 8, 55, 0⟩) "2025-12-05T08:55:00" =
      Sinks.isoformatNaive ⟨2025, 12, 5, 8, 55, 0⟩ ++ "+00:00" ∧
    Sinks.format_date_str (fun _ => Option.none) "2025-12-05T08:55:00Z" =
      "2025-12-05T08:55:00+00:00" ∧
    Sinks.preprocess_record (fun _ => Option.none) { buyorders_shop_id := PyVal.str "9" }
        { orderDate := PyVal.str "2025-12-05T08:55:00Z" } =
      Except.ok
        ⟨[("orderedDate", PyVal.str "2025-12-05T08:55:00+00:00"),
          ("shopID", PyVal.str "9")], []⟩ :=
  ⟨c8_date_normalisation.1 (fun _ => Option.none) "2025-12-05T08:55:00+02:00"
      (by decide) (Or.inl (by decide)),
   c8_date_normalisation.2.1 (fun _ => some ⟨2025, 12, 5, 8, 55, 0⟩)
      "2025-12-05T08:55:00" ⟨2025, 12, 5, 8, 55, 0⟩
      (by decide) (by decide) (by decide) rfl,
   c8_date_normalisation.2.2.1 (fun _ => Option.none),
   c8_date_normalisation.2.2.2 (fun _ => Option.none)⟩

/-- Counterexample for C1: an order with 3 line items whose second line
submission raises an exception still returns success with the order id,
and the returned diagnostics map (`state_updates`) is empty — the 1
failed / 2 succeeded counts are only accumulated in local counters and
logged, not recorded in the returned diagnostics as the claim states. -/
theorem c1_counterexample :
    (Sinks.upsert_record ⟨[("shopID", PyVal.str "1")], some [{}, {}, {}]⟩
        ⟨Sinks.CallResult.ok (some { orderOrderID := PyVal.str "77" }),
         fun i => if i = 1 then Sinks.CallResult.exn "boom" "HTTPError" Option.none
                  else Sinks.CallResult.ok (some { orderLineID := PyVal.str "5" })⟩).stateUpdates
      = [] ∧
    (Sinks.upsert_record ⟨[("shopID", PyVal.str "1")], some [{}, {}, {}]⟩
        ⟨Sinks.CallResult.ok (some { orderOrderID := PyVal.str "77" }),
         fun i => if i = 1 then Sinks.CallResult.exn "boom" "HTTPError" Option.none
                  else Sinks.CallResult.ok (some { orderLineID := PyVal.str "5" })⟩).success
      = true ∧
    (Sinks.upsert_record ⟨[("shopID", PyVal.str "1")], some [{}, {}, {}]⟩
        ⟨Sinks.CallResult.ok (some { orderOrderID := PyVal.str "77" }),
         fun i => if i = 1 then Sinks.CallResult.exn "boom" "HTTPError" Option.none
                  else Sinks.CallResult.ok (some { orderLineID := PyVal.str "5" })⟩).orderId
      = some "77" ∧
    (Sinks.upsert_record ⟨[("shopID", PyVal.str "1")], some [{}, {}, {}]⟩
        ⟨Sinks.CallResult.ok (some { orderOrderID := PyVal.str "77" }),
         fun i => if i = 1 then Sinks.CallResult.exn "boom" "HTTPError" Option.none
                  else Sinks.CallResult.ok (some { orderLineID := PyVal.str "5" })⟩).linesFailed
      = 1 ∧
    (Sinks.upsert_record ⟨[("shopID", PyVal.str "1")], some [{}, {}, {}]⟩
        ⟨Sinks.CallResult.ok (some { orderOrderID := PyVal.str "77" }),
         fun i => if i = 1 then Sinks.CallResult.exn "boom" "HTTPError" Option.none
                  else Sinks.CallResult.ok (some { orderLineID := PyVal.str "5" })⟩).linesSuccess
      = 2 := by
  refine ⟨?_, ?_, ?_, ?_, ?_⟩ <;> rfl

/-- C1 (amended): when the order-creation call succeeds and yields a
truthy provider order id, `upsert_record` returns
`(str(order_id), True, state_updates)` whatever the line outcomes —
every line item is still attempted (one line call per item besides the
order call), the failed/succeeded line counts are aggregated in the
logged counters (`linesFailed` counts exactly the failing line indices
and the two counters sum to the item count) — but the returned
`state_updates` diagnostics map stays empty; the counts are logged, not
recorded in it. -/
theorem c1_line_failure_tolerance (entries : List (String × PyVal))
    (lineItems : List Sinks.LineItem) (oracle : Sinks.Oracle)
    (body : Sinks.RespBody)
    (hord : oracle.orderResult = Sinks.CallResult.ok (some body))
    (hid : (Sinks.orderIdVal body).truthy = true) :
    (Sinks.upsert_record ⟨entries, some lineItems⟩ oracle).orderId =
        some (Sinks.orderIdVal body).pyStr ∧
    (Sinks.upsert_record ⟨entries, some lineItems⟩ oracle).success = true ∧
    (Sinks.upsert_record ⟨entries, some lineItems⟩ oracle).stateUpdates = [] ∧
    (Sinks.upsert_record ⟨entries, some lineItems⟩ oracle).calls.length =
        lineItems.length + 1 ∧
    (Sinks.upsert_record ⟨entries, some lineItems⟩ oracle).linesFailed =
        Sinks.failCount oracle.lineResult 0 lineItems.length ∧
    (Sinks.upsert_record ⟨entries, some lineItems⟩ oracle).linesSuccess +
        (Sinks.upsert_record ⟨entries, some lineItems⟩ oracle).linesFailed =
        lineItems.length := by
  obtain ⟨h1, h2, h3⟩ := Sinks.processLines_spec oracle.lineResult
    (Sinks.orderIdVal body).pyStr lineItems 0
  have e : Sinks.upsert_record ⟨entries, some lineItems⟩ oracle =
      ⟨some (Sinks.orderIdVal body).pyStr, true, [],
        Sinks.ApiCall.order entries ::
          (Sinks.processLines oracle.lineResult
            (Sinks.orderIdVal body).pyStr lineItems 0).2.2,
        (Sinks.processLines oracle.lineResult
          (Sinks.orderIdVal body).pyStr lineItems 0).1,
        (Sinks.processLines oracle.lineResult
          (Sinks.orderIdVal body).pyStr lineItems 0).2.1⟩ := by
    unfold Sinks.upsert_record
    rw [hord]
    simp [hid]
  rw [e]
  exact ⟨rfl, rfl, rfl, by simp [h3], h1, by dsimp only; omega⟩

/-- Witness for C1: the 3-line order with the second line raising — the
order succeeds with id "77", all three lines are attempted, one failure
and two successes are counted, and the returned diagnostics are empty. -/
theorem c1_witness :
    (Sinks.upsert_record ⟨[("shopID", PyVal.str "1")], some [{}, {}, {}]⟩
        ⟨Sinks.CallResult.ok (some { orderOrderID := PyVal.str "77" }),
         fun i => if i = 2 then Sinks.CallResult.exn "boom" "HTTPError" Option.none
                  else Sinks.CallResult.ok (some { orderLineID := PyVal.str "5" })⟩).orderId
      = some "77" ∧
    (Sinks.upsert_record ⟨[("shopID", PyVal.str "1")], some [{}, {}, {}]⟩
        ⟨Sinks.CallResult.ok (some { orderOrderID := PyVal.str "77" }),
         fun i => if i = 2 then Sinks.CallResult.exn "boom" "HTTPError" Option.none
                  else Sinks.CallResult.ok (some { orderLineID := PyVal.str "5" })⟩).success
      = true ∧
    (Sinks.upsert_record ⟨[("shopID", PyVal.str "1")], some [{}, {}, {}]⟩
        ⟨Sinks.CallResult.ok (some { orderOrderID := PyVal.str "77" }),
         fun i => if i = 2 then Sinks.CallResult.exn "boom" "HTTPError" Option.none
                  else Sinks.CallResult.ok (some { orderLineID := PyVal.str "5" })⟩).stateUpdates
      = [] ∧
    (Sinks.upsert_record ⟨[("shopID", PyVal.str "1")], some [{}, {}, {}]⟩
        ⟨Sinks.CallResult.ok (some { orderOrderID := PyVal.str "77" }),
         fun i => if i = 2 then Sinks.CallResult.exn "boom" "HTTPError" Option.none
                  else Sinks.CallResult.ok (some { orderLineID := PyVal.str "5" })⟩).calls.length
      = 4 ∧
    (Sinks.upsert_record ⟨[("shopID", PyVal.str "1")], some [{}, {}, {}]⟩
        ⟨Sinks.CallResult.ok (some { orderOrderID := PyVal.str "77" }),
         fun i => if i = 2 then Sinks.CallResult.exn "boom" "HTTPError" Option.none
                  else Sinks.CallResult.ok (some { orderLineID := PyVal.str "5" })⟩).linesFailed
      = Sinks.failCount
          (fun i => if i = 2 then Sinks.CallResult.exn "boom" "HTTPError" Option.none
                    else Sinks.CallResult.ok (some { orderLineID := PyVal.str "5" })) 0 3 ∧
    (Sinks.upsert_record ⟨[("shopID", PyVal.str "1")], some [{}, {}, {}]⟩
        ⟨Sinks.CallResult.ok (some { orderOrderID := PyVal.str "77" }),
         fun i => if i = 2 then Sinks.CallResult.exn "boom" "HTTPError" Option.none
                  else Sinks.CallResult.ok (some { orderLineID := PyVal.str "5" })⟩).linesSuccess +
    (Sinks.upsert_record ⟨[("shopID", PyVal.str "1")], some [{}, {}, {}]⟩
        ⟨Sinks.CallResult.ok (some { orderOrderID := PyVal.str "77" }),
         fun i => if i = 2 then Sinks.CallResult.exn "boom" "HTTPError" Option.none
                  else Sinks.CallResult.ok (some { orderLineID := PyVal.str "5" })⟩).linesFailed
      = 3 :=
  c1_line_failure_tolerance [("shopID", PyVal.str "1")] [{}, {}, {}]
    ⟨Sinks.CallResult.ok (some { orderOrderID := PyVal.str "77" }),
     fun i => if i = 2 then Sinks.CallResult.exn "boom" "HTTPError" Option.none
              else Sinks.CallResult.ok (some { orderLineID := PyVal.str "5" })⟩
    { orderOrderID := PyVal.str "77" } rfl rfl

/-- Counterexample for C9: a line item with no `quantity` (and no product
id) does not make submission fail before the network call, and the field
is not omitted either — the line payload is built and submitted with the
placeholder string "None" for both `quantity` and `itemID`
(Python `str(None)`), contradicting the required-or-omitted dichotomy. -/
theorem c9_counterexample :
    Sinks.build_line_payload "7" {} =
      [("orderID", "7"), ("quantity", "None"), ("itemID", "None")] ∧
    ("quantity", "None") ∈ Sinks.build_line_payload "7" {} ∧
    (Sinks.upsert_record ⟨[("shopID", PyVal.str "1")], some [{}]⟩
        ⟨Sinks.CallResult.ok (some { orderOrderID := PyVal.str "7" }),
         fun _ => Sinks.CallResult.ok (some { orderLineID := PyVal.str "5" })⟩).calls =
      [Sinks.ApiCall.order [("shopID", PyVal.str "1")],
       Sinks.ApiCall.orderLine
         [("orderID", "7"), ("quantity", "None"), ("itemID", "None")]] := by
  refine ⟨rfl, ?_, rfl⟩
  decide

/-- Inversion for a successful `preprocess_record`: the returned payload
entries are exactly the mapped order fields in insertion order. -/
theorem Sinks.preprocess_ok_entries (parse : String → Option Sinks.NaiveDT)
    (cfg : Config) (rec : Sinks.InputRecord) (p : Sinks.OrderPayload)
    (hok : Sinks.preprocess_record parse cfg rec = Except.ok p) :
    p.entries =
      (if pyOr (pyOr (pyOr rec.buyOrderID rec.idField) rec.externalid) rec.refNum
          ≠ PyVal.none then
        [("refNum",
          PyVal.str (pyOr (pyOr (pyOr rec.buyOrderID rec.idField) rec.externalid)
            rec.refNum).pyStr)]
       else []) ++
      (match strOr (strOr (Sinks.format_date parse rec.orderDate)
          (Sinks.format_date parse rec.transaction_date))
          (Sinks.format_date parse rec.orderedDate) with
        | some s => [("orderedDate", PyVal.str s)]
        | Option.none => []) ++
      (match strOr (strOr (Sinks.format_date parse rec.expectedDeliveryDate)
          (Sinks.format_date parse rec.created_at))
          (Sinks.format_date parse rec.arrivalDate) with
        | some s => [("arrivalDate", PyVal.str s)]
        | Option.none => []) ++
      (if pyOr (pyOr rec.supplierRemoteId rec.supplier_remoteId) rec.vendorID
          ≠ PyVal.none then
        [("vendorID",
          PyVal.str (pyOr (pyOr rec.supplierRemoteId rec.supplier_remoteId)
            rec.vendorID).pyStr)]
       else []) ++
      [("shopID", PyVal.str (pyOr rec.shopID cfg.buyorders_shop_id).pyStr)] ++
      (if rec.shipInstructions.truthy then
        [("shipInstructions", rec.shipInstructions)] else []) ++
      (if rec.stockInstructions.truthy then
        [("stockInstructions", rec.stockInstructions)] else []) ++
      (if rec.shipCost ≠ PyVal.none then [("shipCost", rec.shipCost)] else []) ++
      (if rec.otherCost ≠ PyVal.none then [("otherCost", rec.otherCost)] else []) ++
      (if rec.discount ≠ PyVal.none then [("discount", rec.discount)] else []) := by
  by_cases hs : (pyOr rec.shopID cfg.buyorders_shop_id).truthy = true
  · unfold Sinks.preprocess_record at hok
    dsimp only at hok
    rw [if_neg (not_not_intro hs), Except.ok.injEq] at hok
    subst hok
    rfl
  · unfold Sinks.preprocess_record at hok
    dsimp only at hok
    rw [if_pos hs] at hok
    exact absurd hok (by simp)

/-- C9 (amended): order-level fields follow the required/optional
pattern — the shop id is required and its absence fails mapping before
any network call, while the optional order fields (`refNum` and its
aliases, the two date fields, `vendorID`, `shipInstructions`,
`stockInstructions`, `shipCost`, `otherCost`, `discount`) are omitted
from the order payload when their source values are absent; the per-line
fields `price`, `originalPrice`, `numReceived` and `vendorCost` are
optional and omitted from the line payload when the looked-up value is
`None`; but `quantity` and `itemID` are always included, coerced with
Python `str(...)`, which sends the placeholder string "None" instead of
failing or omitting when the value is absent. -/
theorem c9_field_presence_policy :
    (∀ (parse : String → Option Sinks.NaiveDT) (cfg : Config) (rec : Sinks.InputRecord),
        (pyOr rec.shopID cfg.buyorders_shop_id).truthy = false →
        Sinks.preprocess_record parse cfg rec =
          Except.error "shopID is required but not found in record or config (buyorders_shop_id)") ∧
    (∀ (oid : String) (li : Sinks.LineItem),
        ("quantity", li.quantity.pyStr) ∈ Sinks.build_line_payload oid li ∧
        ("itemID", (pyOr li.productId li.product_remoteId).pyStr) ∈
          Sinks.build_line_payload oid li) ∧
    (∀ (oid : String) (li : Sinks.LineItem) (v : String),
        pyOr li.OptiplySupplierProductPrice li.price = PyVal.none →
        ("price", v) ∉ Sinks.build_line_payload oid li) ∧
    (∀ (oid : String) (li : Sinks.LineItem) (v : String),
        li.originalPrice = PyVal.none →
        ("originalPrice", v) ∉ Sinks.build_line_payload oid li) ∧
    (∀ (oid : String) (li : Sinks.LineItem) (v : String),
        li.numReceived = PyVal.none →
        ("numReceived", v) ∉ Sinks.build_line_payload oid li) ∧
    (∀ (oid : String) (li : Sinks.LineItem) (v : String),
        li.vendorCost = PyVal.none →
        ("vendorCost", v) ∉ Sinks.build_line_payload oid li) ∧
    (∀ (parse : String → Option Sinks.NaiveDT) (cfg : Config)
        (rec : Sinks.InputRecord) (p : Sinks.OrderPayload) (v : PyVal),
        Sinks.preprocess_record parse cfg rec = Except.ok p →
        rec.buyOrderID = PyVal.none → rec.idField = PyVal.none →
        rec.externalid = PyVal.none → rec.refNum = PyVal.none →
        ("refNum", v) ∉ p.entries) ∧
    (∀ (parse : String → Option Sinks.NaiveDT) (cfg : Config)
        (rec : Sinks.InputRecord) (p : Sinks.OrderPayload) (v : PyVal),
        Sinks.preprocess_record parse cfg rec = Except.ok p →
        rec.orderDate = PyVal.none → rec.transaction_date = PyVal.none →
        rec.orderedDate = PyVal.none →
        ("orderedDate", v) ∉ p.entries) ∧
    (∀ (parse : String → Option Sinks.NaiveDT) (cfg : Config)
        (rec : Sinks.InputRecord) (p : Sinks.OrderPayload) (v : PyVal),
        Sinks.preprocess_record parse cfg rec = Except.ok p →
        rec.expectedDeliveryDate = PyVal.none → rec.created_at = PyVal.none →
        rec.arrivalDate = PyVal.none →
        ("arrivalDate", v) ∉ p.entries) ∧
    (∀ (parse : String → Option Sinks.NaiveDT) (cfg : Config)
        (rec : Sinks.InputRecord) (p : Sinks.OrderPayload) (v : PyVal),
        Sinks.preprocess_record parse cfg rec = Except.ok p →
        rec.supplierRemoteId = PyVal.none → rec.supplier_remoteId = PyVal.none →
        rec.vendorID = PyVal.none →
        ("vendorID", v) ∉ p.entries) ∧
    (∀ (parse : String → Option Sinks.NaiveDT) (cfg : Config)
        (rec : Sinks.InputRecord) (p : Sinks.OrderPayload) (v : PyVal),
        Sinks.preprocess_record parse cfg rec = Except.ok p →
        rec.shipInstructions = PyVal.none →
        ("shipInstructions", v) ∉ p.entries) ∧
    (∀ (parse : String → Option Sinks.NaiveDT) (cfg : Config)
        (rec : Sinks.InputRecord) (p : Sinks.OrderPayload) (v : PyVal),
        Sinks.preprocess_record parse cfg rec = Except.ok p →
        rec.stockInstructions = PyVal.none →
        ("stockInstructions", v) ∉ p.entries) ∧
    (∀ (parse : String → Option Sinks.NaiveDT) (cfg : Config)
        (rec : Sinks.InputRecord) (p : Sinks.OrderPayload) (v : PyVal),
        Sinks.preprocess_record parse cfg rec = Except.ok p →
        rec.shipCost = PyVal.none →
        ("shipCost", v) ∉ p.entries) ∧
    (∀ (parse : String → Option Sinks.NaiveDT) (cfg : Config)
        (rec : Sinks.InputRecord) (p : Sinks.OrderPayload) (v : PyVal),
        Sinks.preprocess_record parse cfg rec = Except.ok p →
        rec.otherCost = PyVal.none →
        ("otherCost", v) ∉ p.entries) ∧
    (∀ (parse : String → Option Sinks.NaiveDT) (cfg : Config)
        (rec : Sinks.InputRecord) (p : Sinks.OrderPayload) (v : PyVal),
        Sinks.preprocess_record parse cfg rec = Except.ok p →
        rec.discount = PyVal.none →
        ("discount", v) ∉ p.entries) := by
  refine ⟨?_, ?_, ?_, ?_, ?_, ?_, ?_, ?_, ?_, ?_, ?_, ?_, ?_, ?_, ?_⟩
  · intro parse cfg rec h
    unfold Sinks.preprocess_record
    simp [h]
  · intro oid li
    constructor <;> simp [Sinks.build_line_payload]
  case refine_3 | refine_4 | refine_5 | refine_6 =>
    intro oid li v h
    intro hmem
    simp only [Sinks.build_line_payload, h, ne_eq, not_true_eq_false, if_false] at hmem
    split_ifs at hmem <;> simp_all
  case refine_8 =>
    intro parse cfg rec p v hok h1 h2 h3 hmem
    rw [Sinks.preprocess_ok_entries parse cfg rec p hok] at hmem
    have hod : strOr (strOr (Sinks.format_date parse rec.orderDate)
        (Sinks.format_date parse rec.transaction_date))
        (Sinks.format_date parse rec.orderedDate) = Option.none := by
      simp [h1, h2, h3, Sinks.format_date, strOr]
    rcases had : strOr (strOr (Sinks.format_date parse rec.expectedDeliveryDate)
        (Sinks.format_date parse rec.created_at))
        (Sinks.format_date parse rec.arrivalDate) with _ | s2 <;>
      rw [hod, had] at hmem <;> simp at hmem
  case refine_9 =>
    intro parse cfg rec p v hok h1 h2 h3 hmem
    rw [Sinks.preprocess_ok_entries parse cfg rec p hok] at hmem
    have had : strOr (strOr (Sinks.format_date parse rec.expectedDeliveryDate)
        (Sinks.format_date parse rec.created_at))
        (Sinks.format_date parse rec.arrivalDate) = Option.none := by
      simp [h1, h2, h3, Sinks.format_date, strOr]
    rcases hod : strOr (strOr (Sinks.format_date parse rec.orderDate)
        (Sinks.format_date parse rec.transaction_date))
        (Sinks.format_date parse rec.orderedDate) with _ | s1 <;>
      rw [hod, had] at hmem <;> simp at hmem
  case refine_7 =>
    intro parse cfg rec p v hok h1 h2 h3 h4 hmem
    rw [Sinks.preprocess_ok_entries parse cfg rec p hok] at hmem
    rcases hod : strOr (strOr (Sinks.format_date parse rec.orderDate)
        (Sinks.format_date parse rec.transaction_date))
        (Sinks.format_date parse rec.orderedDate) with _ | s1 <;>
    rcases had : strOr (strOr (Sinks.format_date parse rec.expectedDeliveryDate)
        (Sinks.format_date parse rec.created_at))
        (Sinks.format_date parse rec.arrivalDate) with _ | s2 <;>
      rw [hod, had] at hmem <;>
      simp [h1, h2, h3, h4, pyOr, PyVal.truthy] at hmem
  case refine_10 =>
    intro parse cfg rec p v hok h1 h2 h3 hmem
    rw [Sinks.preprocess_ok_entries parse cfg rec p hok] at hmem
    rcases hod : strOr (strOr (Sinks.format_date parse rec.orderDate)
        (Sinks.format_date parse rec.transaction_date))
        (Sinks.format_date parse rec.orderedDate) with _ | s1 <;>
    rcases had : strOr (strOr (Sinks.format_date parse rec.expectedDeliveryDate)
        (Sinks.format_date parse rec.created_at))
        (Sinks.format_date parse rec.arrivalDate) with _ | s2 <;>
      rw [hod, had] at hmem <;>
      simp [h1, h2, h3, pyOr, PyVal.truthy] at hmem
  all_goals
    intro parse cfg rec p v hok h hmem
    rw [Sinks.preprocess_ok_entries parse cfg rec p hok] at hmem
    rcases hod : strOr (strOr (Sinks.format_date parse rec.orderDate)
        (Sinks.format_date parse rec.transaction_date))
        (Sinks.format_date parse rec.orderedDate) with _ | s1 <;>
    rcases had : strOr (strOr (Sinks.format_date parse rec.expectedDeliveryDate)
        (Sinks.format_date parse rec.created_at))
        (Sinks.format_date parse rec.arrivalDate) with _ | s2 <;>
      rw [hod, had] at hmem <;>
      simp [h, PyVal.truthy] at hmem

/-- Witness for C9: concrete instances — missing shop id fails mapping;
an empty line item still gets `quantity`/`itemID` entries valued "None";
a line item with no optional values carries no `price`, `originalPrice`,
`numReceived` or `vendorCost` entry; and the order payload mapped from a
record carrying only a shop id has none of the optional order fields. -/
theorem c9_witness :
    Sinks.preprocess_record (fun _ => Option.none) {} {} =
      Except.error "shopID is required but not found in record or config (buyorders_shop_id)" ∧
    ("quantity", "None") ∈ Sinks.build_line_payload "7" {} ∧
    ("itemID", "None") ∈ Sinks.build_line_payload "7" {} ∧
    ("price", "3") ∉ Sinks.build_line_payload "7" {} ∧
    ("originalPrice", "3") ∉ Sinks.build_line_payload "7" {} ∧
    ("numReceived", "3") ∉ Sinks.build_line_payload "7" {} ∧
    ("vendorCost", "3") ∉ Sinks.build_line_payload "7" {} ∧
    ("refNum", PyVal.int 3) ∉ [("shopID", PyVal.str "1")] ∧
    ("orderedDate", PyVal.int 3) ∉ [("shopID", PyVal.str "1")] ∧
    ("arrivalDate", PyVal.int 3) ∉ [("shopID", PyVal.str "1")] ∧
    ("vendorID", PyVal.int 3) ∉ [("shopID", PyVal.str "1")] ∧
    ("shipInstructions", PyVal.int 3) ∉ [("shopID", PyVal.str "1")] ∧
    ("stockInstructions", PyVal.int 3) ∉ [("shopID", PyVal.str "1")] ∧
    ("shipCost", PyVal.int 3) ∉ [("shopID", PyVal.str "1")] ∧
    ("otherCost", PyVal.int 3) ∉ [("shopID", PyVal.str "1")] ∧
    ("discount", PyVal.int 3) ∉ [("shopID", PyVal.str "1")] :=
  ⟨c9_field_presence_policy.1 (fun _ => Option.none) {} {} rfl,
   (c9_field_presence_policy.2.1 "7" {}).1,
   (c9_field_presence_policy.2.1 "7" {}).2,
   c9_field_presence_policy.2.2.1 "7" {} "3" rfl,
   c9_field_presence_policy.2.2.2.1 "7" {} "3" rfl,
   c9_field_presence_policy.2.2.2.2.1 "7" {} "3" rfl,
   c9_field_presence_policy.2.2.2.2.2.1 "7" {} "3" rfl,
   c9_field_presence_policy.2.2.2.2.2.2.1 (fun _ => Option.none) {}
     { shopID := PyVal.str "1" } ⟨[("shopID", PyVal.str "1")], []⟩ (PyVal.int 3)
     rfl rfl rfl rfl rfl,
   c9_field_presence_policy.2.2.2.2.2.2.2.1 (fun _ => Option.none) {}
     { shopID := PyVal.str "1" } ⟨[("shopID", PyVal.str "1")], []⟩ (PyVal.int 3)
     rfl rfl rfl rfl,
   c9_field_presence_policy.2.2.2.2.2.2.2.2.1 (fun _ => Option.none) {}
     { shopID := PyVal.str "1" } ⟨[("shopID", PyVal.str "1")], []⟩ (PyVal.int 3)
     rfl rfl rfl rfl,
   c9_field_presence_policy.2.2.2.2.2.2.2.2.2.1 (fun _ => Option.none) {}
     { shopID := PyVal.str "1" } ⟨[("shopID", PyVal.str "1")], []⟩ (PyVal.int 3)
     rfl rfl rfl rfl,
   c9_field_presence_policy.2.2.2.2.2.2.2.2.2.2.1 (fun _ => Option.none) {}
     { shopID := PyVal.str "1" } ⟨[("shopID", PyVal.str "1")], []⟩ (PyVal.int 3)
     rfl rfl,
   c9_field_presence_policy.2.2.2.2.2.2.2.2.2.2.2.1 (fun _ => Option.none) {}
     { shopID := PyVal.str "1" } ⟨[("shopID", PyVal.str "1")], []⟩ (PyVal.int 3)
     rfl rfl,
   c9_field_presence_policy.2.2.2.2.2.2.2.2.2.2.2.2.1 (fun _ => Option.none) {}
     { shopID := PyVal.str "1" } ⟨[("shopID", PyVal.str "1")], []⟩ (PyVal.int 3)
     rfl rfl,
   c9_field_presence_policy.2.2.2.2.2.2.2.2.2.2.2.2.2.1 (fun _ => Option.none) {}
     { shopID := PyVal.str "1" } ⟨[("shopID", PyVal.str "1")], []⟩ (PyVal.int 3)
     rfl rfl,
   c9_field_presence_policy.2.2.2.2.2.2.2.2.2.2.2.2.2.2 (fun _ => Option.none) {}
     { shopID := PyVal.str "1" } ⟨[("shopID", PyVal.str "1")], []⟩ (PyVal.int 3)
     rfl rfl⟩

/-- Counterexample for C10: an exception raised while submitting a line
item (order already created) is caught but NOT converted into the
failure result the claim describes — the record still returns success
with the order id and empty diagnostics, not `(None, False, {error,
error_type})`. -/
theorem c10_counterexample :
    (Sinks.upsert_record ⟨[("shopID", PyVal.str "1")], some [{}]⟩
        ⟨Sinks.CallResult.ok (some { orderOrderID := PyVal.str "9" }),
         fun _ => Sinks.CallResult.exn "boom" "HTTPError" Option.none⟩).success = true ∧
    (Sinks.upsert_record ⟨[("shopID", PyVal.str "1")], some [{}]⟩
        ⟨Sinks.CallResult.ok (some { orderOrderID := PyVal.str "9" }),
         fun _ => Sinks.CallResult.exn "boom" "HTTPError" Option.none⟩).orderId = some "9" ∧
    (Sinks.upsert_record ⟨[("shopID", PyVal.str "1")], some [{}]⟩
        ⟨Sinks.CallResult.ok (some { orderOrderID := PyVal.str "9" }),
         fun _ => Sinks.CallResult.exn "boom" "HTTPError" Option.none⟩).linesFailed = 1 ∧
    (Sinks.upsert_record ⟨[("shopID", PyVal.str "1")], some [{}]⟩
        ⟨Sinks.CallResult.ok (some { orderOrderID := PyVal.str "9" }),
         fun _ => Sinks.CallResult.exn "boom" "HTTPError" Option.none⟩).stateUpdates ≠
      [("error", Sinks.Diag.str "boom"), ("error_type", Sinks.Diag.str "HTTPError")] := by
  refine ⟨rfl, rfl, rfl, ?_⟩
  decide

/-- C10 (amended): `upsert_record` never propagates an exception (it is a
total function of the oracle): an exception raised by the order call is
converted into `(None, False, diagnostics)` whose map holds the message
under "error" and the type name under "error_type", preceded by the
provider error body under "api_error_response" when one is available; an
order response with an unparseable body is treated as `{}`, and a body —
unparseable or parsed — without a truthy order id under any of the three
probed shapes yields
`(None, False, {error: "No orderID in API response", api_response})`
with the response body recorded under `api_response`; exceptions during
line submission are caught and counted, leaving the success outcome
intact; and an empty/falsy record returns `(None, False, {})` with no
network call. -/
theorem c10_exception_conversion :
    (∀ (rec : Sinks.UpsertRecord) (oracle : Sinks.Oracle) (msg ty : String)
        (errBody : Option Sinks.Diag),
        ¬ (rec.entries = [] ∧ rec.lineItems = Option.none) →
        oracle.orderResult = Sinks.CallResult.exn msg ty errBody →
        Sinks.upsert_record rec oracle =
          ⟨Option.none, false, Sinks.outerDiag msg ty errBody,
            [Sinks.ApiCall.order rec.entries], 0, 0⟩) ∧
    (∀ (msg ty : String) (errBody : Option Sinks.Diag),
        ("error", Sinks.Diag.str msg) ∈ Sinks.outerDiag msg ty errBody ∧
        ("error_type", Sinks.Diag.str ty) ∈ Sinks.outerDiag msg ty errBody ∧
        ∀ d, errBody = some d →
          ("api_error_response", d) ∈ Sinks.outerDiag msg ty errBody) ∧
    (∀ oracle : Sinks.Oracle,
        Sinks.upsert_record ⟨[], Option.none⟩ oracle =
          ⟨Option.none, false, [], [], 0, 0⟩) ∧
    (∀ (rec : Sinks.UpsertRecord) (oracle : Sinks.Oracle),
        ¬ (rec.entries = [] ∧ rec.lineItems = Option.none) →
        oracle.orderResult = Sinks.CallResult.ok Option.none →
        Sinks.upsert_record rec oracle =
          ⟨Option.none, false,
            [("error", Sinks.Diag.str "No orderID in API response"),
             ("api_response", Sinks.Diag.body Sinks.RespBody.empty)],
            [Sinks.ApiCall.order rec.entries], 0, 0⟩) ∧
    (∀ (rec : Sinks.UpsertRecord) (oracle : Sinks.Oracle) (body : Sinks.RespBody),
        ¬ (rec.entries = [] ∧ rec.lineItems = Option.none) →
        oracle.orderResult = Sinks.CallResult.ok (some body) →
        (Sinks.orderIdVal body).truthy = false →
        Sinks.upsert_record rec oracle =
          ⟨Option.none, false,
            [("error", Sinks.Diag.str "No orderID in API response"),
             ("api_response", Sinks.Diag.body body)],
            [Sinks.ApiCall.order rec.entries], 0, 0⟩) ∧
    (∀ (entries : List (String × PyVal)) (lineItems : List Sinks.LineItem)
        (oracle : Sinks.Oracle) (body : Sinks.RespBody),
        oracle.orderResult = Sinks.CallResult.ok (some body) →
        (Sinks.orderIdVal body).truthy = true →
        (Sinks.upsert_record ⟨entries, some lineItems⟩ oracle).success = true ∧
        (Sinks.upsert_record ⟨entries, some lineItems⟩ oracle).orderId =
          some (Sinks.orderIdVal body).pyStr) := by
  refine ⟨?_, ?_, ?_, ?_, ?_, ?_⟩
  · intro rec oracle msg ty errBody hne hord
    unfold Sinks.upsert_record
    rw [if_neg hne, hord]
  · intro msg ty errBody
    refine ⟨?_, ?_, ?_⟩
    · cases errBody <;> simp [Sinks.outerDiag]
    · cases errBody <;> simp [Sinks.outerDiag]
    · intro d hd
      subst hd
      simp [Sinks.outerDiag]
  · intro oracle
    unfold Sinks.upsert_record
    rw [if_pos ⟨rfl, rfl⟩]
  · intro rec oracle hne hord
    unfold Sinks.upsert_record
    rw [if_neg hne, hord]
    rfl
  · intro rec oracle body hne hord hid
    unfold Sinks.upsert_record
    rw [if_neg hne, hord]
    simp [hid]
  · intro entries lineItems oracle body hord hid
    have e : Sinks.upsert_record ⟨entries, some lineItems⟩ oracle =
        ⟨some (Sinks.orderIdVal body).pyStr, true, [],
          Sinks.ApiCall.order entries ::
            (Sinks.processLines oracle.lineResult
              (Sinks.orderIdVal body).pyStr lineItems 0).2.2,
          (Sinks.processLines oracle.lineResult
            (Sinks.orderIdVal body).pyStr lineItems 0).1,
          (Sinks.processLines oracle.lineResult
            (Sinks.orderIdVal body).pyStr lineItems 0).2.1⟩ := by
      unfold Sinks.upsert_record
      rw [hord]
      simp [hid]
    rw [e]
    exact ⟨rfl, rfl⟩

/-- Witness for C10: concrete instances — an order-call exception with an
attached provider body yields the failure triple with `error`,
`error_type` and `api_error_response` diagnostics; the empty record
yields `(None, False, {})` with no calls; a parsed order body whose
only id field is the falsy empty string yields the no-order-id failure
with the body under `api_response`; a caught line exception leaves
success intact. -/
theorem c10_witness :
    Sinks.upsert_record ⟨[("shopID", PyVal.str "1")], some []⟩
        ⟨Sinks.CallResult.exn "boom" "FatalAPIError"
            (some (Sinks.Diag.str "bad request")),
         fun _ => Sinks.CallResult.ok Option.none⟩ =
      ⟨Option.none, false,
        Sinks.outerDiag "boom" "FatalAPIError" (some (Sinks.Diag.str "bad request")),
        [Sinks.ApiCall.order [("shopID", PyVal.str "1")]], 0, 0⟩ ∧
    ("api_error_response", Sinks.Diag.str "bad request") ∈
      Sinks.outerDiag "boom" "FatalAPIError" (some (Sinks.Diag.str "bad request")) ∧
    Sinks.upsert_record ⟨[], Option.none⟩
        ⟨Sinks.CallResult.ok Option.none, fun _ => Sinks.CallResult.ok Option.none⟩ =
      ⟨Option.none, false, [], [], 0, 0⟩ ∧
    Sinks.upsert_record ⟨[("shopID", PyVal.str "1")], some []⟩
        ⟨Sinks.CallResult.ok (some { idField := PyVal.str "" }),
         fun _ => Sinks.CallResult.ok Option.none⟩ =
      ⟨Option.none, false,
        [("error", Sinks.Diag.str "No orderID in API response"),
         ("api_response", Sinks.Diag.body { idField := PyVal.str "" })],
        [Sinks.ApiCall.order [("shopID", PyVal.str "1")]], 0, 0⟩ ∧
    (Sinks.upsert_record ⟨[("shopID", PyVal.str "1")], some [{}]⟩
        ⟨Sinks.CallResult.ok (some { orderOrderID := PyVal.str "9" }),
         fun _ => Sinks.CallResult.exn "boom" "HTTPError" Option.none⟩).success = true :=
  ⟨c10_exception_conversion.1 ⟨[("shopID", PyVal.str "1")], some []⟩
      ⟨Sinks.CallResult.exn "boom" "FatalAPIError"
          (some (Sinks.Diag.str "bad request")),
       fun _ => Sinks.CallResult.ok Option.none⟩
      "boom" "FatalAPIError" (some (Sinks.Diag.str "bad request"))
      (by simp) rfl,
   (c10_exception_conversion.2.1 "boom" "FatalAPIError"
      (some (Sinks.Diag.str "bad request"))).2.2 (Sinks.Diag.str "bad request") rfl,
   c10_exception_conversion.2.2.1
      ⟨Sinks.CallResult.ok Option.none, fun _ => Sinks.CallResult.ok Option.none⟩,
   c10_exception_conversion.2.2.2.2.1 ⟨[("shopID", PyVal.str "1")], some []⟩
      ⟨Sinks.CallResult.ok (some { idField := PyVal.str "" }),
       fun _ => Sinks.CallResult.ok Option.none⟩
      { idField := PyVal.str "" } (by simp) rfl rfl,
   (c10_exception_conversion.2.2.2.2.2 [("shopID", PyVal.str "1")] [{}]
      ⟨Sinks.CallResult.ok (some { orderOrderID := PyVal.str "9" }),
       fun _ => Sinks.CallResult.exn "boom" "HTTPError" Option.none⟩
      { orderOrderID := PyVal.str "9" } rfl rfl).1⟩
